import Mathlib

/-!
# Verification of `external_search.py` (`ExternalSearch` adapter)

Shallow embedding of the Perplexity search adapter. The HTTP transport is
modelled as an explicit outcome value handed to each operation: either a
response (status code plus body) or a raised transport exception carrying its
text. A body is either well-formed (the `choices[0].message.content` answer
text is extractable) or malformed (JSON decoding / field access raises an
exception with the given text). Clock reads (`datetime.now().isoformat()`)
are modelled by an explicit `now : String` parameter. Python dicts with a
fixed key set become structures whose absent keys are `none`.
-/

namespace ExternalSearch

/-- Body of a simulated HTTP response: either the assistant answer text is
extractable (`wellFormed`), or `response.json()` / the `choices[0].message
.content` accesses raise an exception whose text is `exnText` (`malformed`). -/
inductive HttpBody where
  | wellFormed (answer : String)
  | malformed (exnText : String)
deriving DecidableEq, Repr

/-- Outcome of the single outbound HTTP call: a response with a status code
and a body, or a transport exception (connection error, timeout) whose
`str(e)` text is `exnText`. -/
inductive HttpOutcome where
  | response (status : Nat) (body : HttpBody)
  | exn (exnText : String)
deriving DecidableEq, Repr

/-- `_parse_weather_response` stub result (lines 196-200 of the source). -/
structure WeatherData where
  summary : String
  forecast : List String
  agricultural_impact : String
deriving DecidableEq, Repr

/-- `_parse_price_response` stub result (lines 204-211 of the source). -/
structure PriceData where
  commodity : String
  current_price : Nat
  currency : String
  unit : String
  trend : String
  last_updated : String
deriving DecidableEq, Repr

/-- `_parse_news_response` stub item (lines 216-220 of the source). -/
structure NewsItem where
  title : String
  summary : String
  relevance : String
deriving DecidableEq, Repr

/-- `_parse_alerts_response` stub item (lines 226-232 of the source). -/
structure Alert where
  type : String
  name : String
  severity : String
  affected_crops : List String
  recommended_action : String
deriving DecidableEq, Repr

/-- Result envelope of the public operations. In Python this is a dict;
each optional field is `none` exactly when the corresponding key is absent. -/
structure SearchResult where
  success : Bool
  answer : Option String
  search_type : Option String
  sources : Option (List String)
  timestamp : Option String
  error : Option String
  message : Option String
  weather_data : Option WeatherData
  price_data : Option PriceData
  news_items : Option (List NewsItem)
  alerts : Option (List Alert)
deriving DecidableEq, Repr

/-- The `enhancements` dict of `_enhance_query` (lines 165-171): returns
`some` value for the five keys present, `none` otherwise. -/
def enhancements (search_type : String) : Option String :=
  if search_type = "weather" then
    some "Include temperature, rainfall, humidity, wind speed. Provide daily breakdown."
  else if search_type = "prices" then
    some "Include current market prices, price trends, and comparison with previous period."
  else if search_type = "news" then
    some "Include recent developments, policy changes, and market updates."
  else if search_type = "alerts" then
    some "Include severity level, affected areas, and recommended actions."
  else if search_type = "general" then
    some "Provide comprehensive agricultural information with sources."
  else
    none

/-- `_enhance_query` (lines 163-174): `enhancements.get(search_type,
enhancements["general"])` appended to the query after a `". "` separator. -/
def enhance_query (query : String) (search_type : String) : String :=
  let enhancement := (enhancements search_type).getD ((enhancements "general").getD "")
  query ++ ". " ++ enhancement

/-- The chat-completion request body built by `search` (lines 48-62), minus
the float temperature field (0.2), which carries no verified claim. The user
message content is the enhanced query (line 57). -/
structure ChatRequest where
  model : String
  system_content : String
  user_content : String
  max_tokens : Nat
deriving DecidableEq, Repr

/-- The request `search` sends upstream for a given query and search type. -/
def requestFor (query : String) (search_type : String) : ChatRequest :=
  { model := "pplx-70b-online"
    system_content := "You are an agricultural assistant providing current information for Croatian farmers. Always cite sources."
    user_content := enhance_query query search_type
    max_tokens := 1000 }

/-- One character of the URL regex body
`(?:[a-zA-Z]|[0-9]|[$-_@.&+]|[!*\\(\\),]|(?:%[0-9a-fA-F][0-9a-fA-F]))`
(line 187). The alternatives are kept verbatim even where they overlap:
`[$-_@.&+]` is the codepoint range 0x24-0x5F plus `@ . & +` (all inside the
range), `[!*\\(\\),]` adds `! * \ ( ) ,`, and the `%hh` alternative begins
with `%` = 0x25, which the range already accepts, so character-wise the
regex consumes exactly this set. -/
def urlChar (c : Char) : Bool :=
  (('a' ≤ c && c ≤ 'z') || ('A' ≤ c && c ≤ 'Z')) ||
  ('0' ≤ c && c ≤ '9') ||
  ('$' ≤ c && c ≤ '_') ||
  (c == '@' || c == '.' || c == '&' || c == '+') ||
  (c == '!' || c == '*' || c == '\\' || c == '(' || c == ')' || c == ',')

/-- After the literal `http` / `https`, the regex requires `://` followed by
a nonempty greedy run of `urlChar`s. Returns the run and the rest of the
line. -/
def matchSchemeRest : List Char → Option (List Char × List Char)
  | ':' :: '/' :: '/' :: r =>
      let run := r.takeWhile urlChar
      if run.isEmpty then none else some (run, r.dropWhile urlChar)
  | _ => none

/-- One attempt of the regex `http[s]?://(...)+` anchored at the head of the
list: on success, the matched URL text and the unconsumed suffix. When the
input continues with `s` but `://` does not follow, the regex backtracks to
the empty `[s]?` branch, which then fails on `s` vs `:`, so the whole
attempt fails. -/
def matchUrlAt : List Char → Option (String × List Char)
  | 'h' :: 't' :: 't' :: 'p' :: rest =>
      (match rest with
       | 's' :: r2 =>
           match matchSchemeRest r2 with
           | some (run, rem) =>
               some (String.mk ('h' :: 't' :: 't' :: 'p' :: 's' :: ':' :: '/' :: '/' :: run), rem)
           | none => none
       | r2 =>
           match matchSchemeRest r2 with
           | some (run, rem) =>
               some (String.mk ('h' :: 't' :: 't' :: 'p' :: ':' :: '/' :: '/' :: run), rem)
           | none => none)
  | _ => none

/-- `re.findall` of the URL regex over a line: scan left to right, restart
after each match (every match consumes at least eight characters), slide by
one character otherwise. `fuel` bounds the scan; `findUrls` supplies the
line length, which suffices since every step consumes at least one
character. -/
def findUrlsAux : Nat → List Char → List String
  | 0, _ => []
  | _, [] => []
  | fuel + 1, c :: rest =>
      match matchUrlAt (c :: rest) with
      | some (url, rem) => url :: findUrlsAux fuel rem
      | none => findUrlsAux fuel rest

/-- All URL-regex matches in one line, left to right. -/
def findUrls (line : List Char) : List String :=
  findUrlsAux line.length line

/-- `needle` is a prefix of `hay` (character lists). -/
def listPrefixEq : List Char → List Char → Bool
  | [], _ => true
  | _ :: _, [] => false
  | a :: as, b :: bs => a == b && listPrefixEq as bs

/-- Python's `needle in hay` substring test on character lists. -/
def hasSubstr (needle : List Char) : List Char → Bool
  | [] => listPrefixEq needle []
  | c :: rest => listPrefixEq needle (c :: rest) || hasSubstr needle rest

/-- `String` wrapper for the substring test: `sub in s` in Python. -/
def strContains (s : String) (sub : String) : Bool :=
  hasSubstr sub.data s.data

/-- `answer.split('\n')` on character lists. -/
def splitLines : List Char → List (List Char)
  | [] => [[]]
  | c :: rest =>
      if c == '\n' then [] :: splitLines rest
      else
        match splitLines rest with
        | [] => [[c]]
        | l :: ls => (c :: l) :: ls

/-- The URLs one line contributes in the `_extract_sources` loop (lines
183-188): lines containing `http` or `www.` are scanned with the URL regex,
other lines contribute nothing. -/
def lineSources (line : List Char) : List String :=
  if hasSubstr ['h', 't', 't', 'p'] line || hasSubstr ['w', 'w', 'w', '.'] line then
    findUrls line
  else
    []

/-- `_extract_sources` (lines 176-190): split the answer into lines, collect
the per-line regex matches, and deduplicate via `list(set(sources))`. The
Python set iteration order is unspecified; `List.dedup` fixes one
duplicate-free enumeration of the same set of URLs. -/
def extract_sources (answer : String) : List String :=
  ((splitLines answer.data).flatMap lineSources).dedup

/-- `search` (lines 28-98). The simulated transport outcome and the clock
reading are explicit arguments; every Python `return` dict becomes a
`SearchResult` whose missing keys are `none`. A transport exception, or a
malformed body reached in the 200 branch, lands in the `except` clause. -/
def search (query : String) (search_type : String) (outcome : HttpOutcome)
    (now : String) : SearchResult :=
  match outcome with
  | .exn e =>
      { success := false, answer := none, search_type := none, sources := none
        timestamp := none, error := some e
        message := some "Search service temporarily unavailable"
        weather_data := none, price_data := none, news_items := none, alerts := none }
  | .response status body =>
      if status = 200 then
        match body with
        | .wellFormed answer =>
            { success := true, answer := some answer, search_type := some search_type
              sources := some (extract_sources answer), timestamp := some now
              error := none, message := none
              weather_data := none, price_data := none, news_items := none, alerts := none }
        | .malformed e =>
            { success := false, answer := none, search_type := none, sources := none
              timestamp := none, error := some e
              message := some "Search service temporarily unavailable"
              weather_data := none, price_data := none, news_items := none, alerts := none }
      else
        { success := false, answer := none, search_type := none, sources := none
          timestamp := none, error := some ("API error: " ++ toString status)
          message := some "Unable to fetch current information"
          weather_data := none, price_data := none, news_items := none, alerts := none }

/-- `_parse_weather_response` (lines 192-200): fixed stub, ignores the
answer text. -/
def parse_weather_response (answer : String) : WeatherData :=
  { summary := "Weather data extracted from response"
    forecast := []
    agricultural_impact := "Suitable for most farming activities" }

/-- `_parse_price_response` (lines 202-211): fixed stub except for the
clock reading. -/
def parse_price_response (answer : String) (now : String) : PriceData :=
  { commodity := "", current_price := 0, currency := "EUR", unit := "ton"
    trend := "stable", last_updated := now }

/-- `_parse_news_response` (lines 213-221): fixed single-item stub. -/
def parse_news_response (answer : String) : List NewsItem :=
  [{ title := "Agricultural news item", summary := "News summary", relevance := "high" }]

/-- `_parse_alerts_response` (lines 223-233): fixed single-item stub. -/
def parse_alerts_response (answer : String) : List Alert :=
  [{ type := "pest", name := "Alert name", severity := "medium"
     affected_crops := [], recommended_action := "Monitor fields" }]

/-- The query string `get_weather_forecast` builds (line 104). -/
def weatherQuery (location : String) (days : Nat) : String :=
  "Weather forecast for " ++ location ++ " next " ++ toString days ++
    " days for farming agricultural planning temperature rainfall humidity"

/-- `get_weather_forecast` (lines 100-113). -/
def get_weather_forecast (location : String) (days : Nat) (outcome : HttpOutcome)
    (now : String) : SearchResult :=
  let result := search (weatherQuery location days) "weather" outcome now
  if result.success then
    { result with weather_data := some (parse_weather_response (result.answer.getD "")) }
  else
    result

/-- The query string `get_market_prices` builds (line 119). -/
def pricesQuery (commodity : String) (market : String) : String :=
  "Current " ++ commodity ++ " prices in " ++ market ++ " agricultural market EUR per ton"

/-- `get_market_prices` (lines 115-128). The parser's own
`datetime.now()` call is modelled by the same instant `now`. -/
def get_market_prices (commodity : String) (market : String) (outcome : HttpOutcome)
    (now : String) : SearchResult :=
  let result := search (pricesQuery commodity market) "prices" outcome now
  if result.success then
    { result with price_data := some (parse_price_response (result.answer.getD "") now) }
  else
    result

/-- The query string `get_agricultural_news` builds (lines 134-136); Python
`if topic:` is false for `None` and for the empty string. -/
def newsQuery (topic : Option String) (region : String) : String :=
  let base := "Recent agricultural news " ++ region
  match topic with
  | none => base
  | some t => if t = "" then base else base ++ " about " ++ t

/-- `get_agricultural_news` (lines 130-145). -/
def get_agricultural_news (topic : Option String) (region : String)
    (outcome : HttpOutcome) (now : String) : SearchResult :=
  let result := search (newsQuery topic region) "news" outcome now
  if result.success then
    { result with news_items := some (parse_news_response (result.answer.getD "")) }
  else
    result

/-- `", ".join(crops)` (line 151). -/
def joinComma : List String → String
  | [] => ""
  | [s] => s
  | s :: rest => s ++ ", " ++ joinComma rest

/-- The query string `get_pest_disease_alerts` builds (line 152). -/
def alertsQuery (region : String) (crops : List String) : String :=
  "Current pest disease alerts warnings " ++ region ++ " for " ++ joinComma crops ++ " crops"

/-- `get_pest_disease_alerts` (lines 147-161). -/
def get_pest_disease_alerts (region : String) (crops : List String)
    (outcome : HttpOutcome) (now : String) : SearchResult :=
  let result := search (alertsQuery region crops) "alerts" outcome now
  if result.success then
    { result with alerts := some (parse_alerts_response (result.answer.getD "")) }
  else
    result

/-- `health_check` (lines 235-253): true exactly on a status-200 response;
any transport exception is caught and yields false. -/
def health_check (outcome : HttpOutcome) : Bool :=
  match outcome with
  | .response status _ => status == 200
  | .exn _ => false

/-- Spec-side enhancement table, written from the specification's words (the
claimed suffix per search type, an unrecognized value falling back to the
general suffix), for comparison with the source's `_enhance_query`. -/
def specSuffix (search_type : String) : String :=
  if search_type = "weather" then
    "Include temperature, rainfall, humidity, wind speed. Provide daily breakdown."
  else if search_type = "prices" then
    "Include current market prices, price trends, and comparison with previous period."
  else if search_type = "news" then
    "Include recent developments, policy changes, and market updates."
  else if search_type = "alerts" then
    "Include severity level, affected areas, and recommended actions."
  else
    "Provide comprehensive agricultural information with sources."

/-- The four sub-object fields the base `search` envelope never populates. -/
theorem search_no_extras (q st : String) (o : HttpOutcome) (now : String) :
    (search q st o now).weather_data = none ∧ (search q st o now).price_data = none ∧
    (search q st o now).news_items = none ∧ (search q st o now).alerts = none := by
  cases o with
  | exn e => simp [search]
  | response status body =>
    by_cases h : status = 200
    · cases body <;> simp [search, h]
    · simp [search, h]

/-- C1: for every query, search type, and simulated transport exception
(connection error, timeout, or malformed/missing-field response body), the
search operation catches the exception and returns `success = false`, the
exception's text as `error`, and the message "Search service temporarily
unavailable". In the embedding every public operation is a total Lean
function, so no exception can reach the caller: all failure is a result
value. -/
theorem search_exception_becomes_failure_envelope (q st now e : String) :
    search q st (HttpOutcome.exn e) now =
      { success := false, answer := none, search_type := none, sources := none
        timestamp := none, error := some e
        message := some "Search service temporarily unavailable"
        weather_data := none, price_data := none, news_items := none, alerts := none } ∧
    search q st (HttpOutcome.response 200 (HttpBody.malformed e)) now =
      { success := false, answer := none, search_type := none, sources := none
        timestamp := none, error := some e
        message := some "Search service temporarily unavailable"
        weather_data := none, price_data := none, news_items := none, alerts := none } :=
  ⟨rfl, rfl⟩

/-- C2: for a simulated status-200 response whose well-formed body carries
answer text `A`, `search` returns success with the same answer, the given
search type, the deduplicated URL collection extracted from `A`, and the
call-time timestamp; the extracted collection never holds duplicates, and a
body naming the same URL twice yields that URL exactly once. -/
theorem search_success_envelope :
    (∀ q st answer now,
        search q st (HttpOutcome.response 200 (HttpBody.wellFormed answer)) now =
          { success := true, answer := some answer, search_type := some st
            sources := some (extract_sources answer), timestamp := some now
            error := none, message := none
            weather_data := none, price_data := none, news_items := none, alerts := none }) ∧
    (∀ answer, (extract_sources answer).Nodup) ∧
    extract_sources "see http://a.example twice: http://a.example" = ["http://a.example"] :=
  ⟨fun _ _ _ _ => rfl, fun _ => List.nodup_dedup _, by decide⟩

/-- C3 counterexample: the enhanced query is not the original query with the
table suffix appended directly — the code inserts a ". " separator first, so
already at query "q" with search type "weather" the two strings differ. -/
theorem enhanced_query_not_bare_append :
    ¬ ((requestFor "q" "weather").user_content = "q" ++ specSuffix "weather") := by
  decide

/-- C3 amended: for every query and every search type (the five recognized
values and any unrecognized string alike), the user-message content sent
upstream is the original query, then the separator ". ", then exactly the
enhancement-table suffix for that search type, an unrecognized value getting
the "general" suffix rather than an error. -/
theorem enhanced_query_is_query_sep_suffix (q st : String) :
    (requestFor q st).user_content = q ++ ". " ++ specSuffix st := by
  by_cases h1 : st = "weather"
  · rw [h1]; rfl
  by_cases h2 : st = "prices"
  · rw [h2]; rfl
  by_cases h3 : st = "news"
  · rw [h3]; rfl
  by_cases h4 : st = "alerts"
  · rw [h4]; rfl
  by_cases h5 : st = "general"
  · rw [h5]; rfl
  simp only [requestFor, enhance_query, enhancements, specSuffix,
    if_neg h1, if_neg h2, if_neg h3, if_neg h4, if_neg h5]
  rfl

/-- C4: for every simulated response whose status is not 200, `search`
returns failure with `error = "API error: <status>"` and the message
"Unable to fetch current information", after the single attempt the
embedding models (the code has no retry loop). -/
theorem search_non_200_envelope (q st now : String) (status : Nat) (body : HttpBody)
    (h : status ≠ 200) :
    search q st (HttpOutcome.response status body) now =
      { success := false, answer := none, search_type := none, sources := none
        timestamp := none, error := some ("API error: " ++ toString status)
        message := some "Unable to fetch current information"
        weather_data := none, price_data := none, news_items := none, alerts := none } := by
  simp [search, h]

/-- C4 witness: status 429 is not 200, and there `search` reports
"API error: 429". -/
theorem search_non_200_envelope_witness :
    (429 : Nat) ≠ 200 ∧
    search "q" "general" (HttpOutcome.response 429 (HttpBody.wellFormed "x")) "t" =
      { success := false, answer := none, search_type := none, sources := none
        timestamp := none, error := some "API error: 429"
        message := some "Unable to fetch current information"
        weather_data := none, price_data := none, news_items := none, alerts := none } :=
  ⟨by decide,
   search_non_200_envelope "q" "general" "t" 429 (HttpBody.wellFormed "x") (by decide)⟩

/-- C5: every envelope `search` produces — on HTTP 200, on a non-200
status, or on a caught exception — populates `answer` exactly when
`success` is true and `error` exactly when `success` is false. -/
theorem search_answer_error_exclusive (q st : String) (o : HttpOutcome) (now : String) :
    ((search q st o now).answer.isSome = true ↔ (search q st o now).success = true) ∧
    ((search q st o now).error.isSome = true ↔ (search q st o now).success = false) := by
  cases o with
  | exn e => simp [search]
  | response status body =>
    by_cases h : status = 200
    · cases body <;> simp [search, h]
    · simp [search, h]

/-- The envelope fields a domain operation must hand through unchanged from
the underlying `search` result. -/
def framePreserved (r b : SearchResult) : Prop :=
  r.success = b.success ∧ r.answer = b.answer ∧ r.search_type = b.search_type ∧
  r.sources = b.sources ∧ r.timestamp = b.timestamp ∧ r.error = b.error ∧
  r.message = b.message

/-- C6: each of the four domain operations returns the envelope produced by
`search` with its success/error state and every base field unchanged, and
populates its own parsed sub-object exactly when `success` is true (with the
corresponding stub parse of the answer), leaving the other three sub-object
fields absent. -/
theorem domain_ops_preserve_search_envelope :
    (∀ (location : String) (days : Nat) (o : HttpOutcome) (now : String),
      framePreserved (get_weather_forecast location days o now)
        (search (weatherQuery location days) "weather" o now) ∧
      (get_weather_forecast location days o now).weather_data =
        (if (search (weatherQuery location days) "weather" o now).success then
          some (parse_weather_response
            ((search (weatherQuery location days) "weather" o now).answer.getD ""))
        else none) ∧
      (get_weather_forecast location days o now).price_data = none ∧
      (get_weather_forecast location days o now).news_items = none ∧
      (get_weather_forecast location days o now).alerts = none) ∧
    (∀ (commodity market : String) (o : HttpOutcome) (now : String),
      framePreserved (get_market_prices commodity market o now)
        (search (pricesQuery commodity market) "prices" o now) ∧
      (get_market_prices commodity market o now).price_data =
        (if (search (pricesQuery commodity market) "prices" o now).success then
          some (parse_price_response
            ((search (pricesQuery commodity market) "prices" o now).answer.getD "") now)
        else none) ∧
      (get_market_prices commodity market o now).weather_data = none ∧
      (get_market_prices commodity market o now).news_items = none ∧
      (get_market_prices commodity market o now).alerts = none) ∧
    (∀ (topic : Option String) (region : String) (o : HttpOutcome) (now : String),
      framePreserved (get_agricultural_news topic region o now)
        (search (newsQuery topic region) "news" o now) ∧
      (get_agricultural_news topic region o now).news_items =
        (if (search (newsQuery topic region) "news" o now).success then
          some (parse_news_response
            ((search (newsQuery topic region) "news" o now).answer.getD ""))
        else none) ∧
      (get_agricultural_news topic region o now).weather_data = none ∧
      (get_agricultural_news topic region o now).price_data = none ∧
      (get_agricultural_news topic region o now).alerts = none) ∧
    (∀ (region : String) (crops : List String) (o : HttpOutcome) (now : String),
      framePreserved (get_pest_disease_alerts region crops o now)
        (search (alertsQuery region crops) "alerts" o now) ∧
      (get_pest_disease_alerts region crops o now).alerts =
        (if (search (alertsQuery region crops) "alerts" o now).success then
          some (parse_alerts_response
            ((search (alertsQuery region crops) "alerts" o now).answer.getD ""))
        else none) ∧
      (get_pest_disease_alerts region crops o now).weather_data = none ∧
      (get_pest_disease_alerts region crops o now).price_data = none ∧
      (get_pest_disease_alerts region crops o now).news_items = none) := by
  refine ⟨?_, ?_, ?_, ?_⟩
  · intro location days o now
    have hx := search_no_extras (weatherQuery location days) "weather" o now
    simp only [get_weather_forecast]
    generalize search (weatherQuery location days) "weather" o now = b at hx ⊢
    obtain ⟨s, a, st', so, ts, er, me, wd, pd, ni, al⟩ := b
    obtain ⟨e1, e2, e3, e4⟩ := hx
    cases s <;> simp_all [framePreserved]
  · intro commodity market o now
    have hx := search_no_extras (pricesQuery commodity market) "prices" o now
    simp only [get_market_prices]
    generalize search (pricesQuery commodity market) "prices" o now = b at hx ⊢
    obtain ⟨s, a, st', so, ts, er, me, wd, pd, ni, al⟩ := b
    obtain ⟨e1, e2, e3, e4⟩ := hx
    cases s <;> simp_all [framePreserved]
  · intro topic region o now
    have hx := search_no_extras (newsQuery topic region) "news" o now
    simp only [get_agricultural_news]
    generalize search (newsQuery topic region) "news" o now = b at hx ⊢
    obtain ⟨s, a, st', so, ts, er, me, wd, pd, ni, al⟩ := b
    obtain ⟨e1, e2, e3, e4⟩ := hx
    cases s <;> simp_all [framePreserved]
  · intro region crops o now
    have hx := search_no_extras (alertsQuery region crops) "alerts" o now
    simp only [get_pest_disease_alerts]
    generalize search (alertsQuery region crops) "alerts" o now = b at hx ⊢
    obtain ⟨s, a, st', so, ts, er, me, wd, pd, ni, al⟩ := b
    obtain ⟨e1, e2, e3, e4⟩ := hx
    cases s <;> simp_all [framePreserved]

/-- C7: `health_check` is true exactly when the simulated GET to the models
endpoint has status 200; any other status, and any transport exception,
give false — the exception is caught, never propagated. -/
theorem health_check_true_iff_status_200 :
    (∀ (status : Nat) (body : HttpBody),
        (health_check (HttpOutcome.response status body) = true ↔ status = 200)) ∧
    (∀ e : String, health_check (HttpOutcome.exn e) = false) := by
  refine ⟨fun status body => ?_, fun e => rfl⟩
  simp [health_check]

/-- C8: the weather query for ("Zagreb", 5) contains the literal substrings
"Zagreb" and "5 days", and the pest-alert query for ("Slavonia",
["wheat", "maize"]) contains the comma-joined crops "wheat, maize" and
"Slavonia". -/
theorem domain_query_templates :
    strContains (weatherQuery "Zagreb" 5) "Zagreb" = true ∧
    strContains (weatherQuery "Zagreb" 5) "5 days" = true ∧
    strContains (alertsQuery "Slavonia" ["wheat", "maize"]) "wheat, maize" = true ∧
    strContains (alertsQuery "Slavonia" ["wheat", "maize"]) "Slavonia" = true := by
  decide

/-- C9: for every commodity, market, and successful underlying search —
whatever the answer text — `get_market_prices` attaches the fixed
placeholder price object: empty commodity, zero price, currency EUR, unit
ton, trend "stable", last_updated the call time. -/
theorem get_market_prices_attaches_placeholder (commodity market answer now : String) :
    (get_market_prices commodity market
        (HttpOutcome.response 200 (HttpBody.wellFormed answer)) now).price_data =
      some { commodity := "", current_price := 0, currency := "EUR", unit := "ton"
             trend := "stable", last_updated := now } := by
  rfl

/-- A successful URL-regex match always begins with the literal `http`, so
the matched line has `http` as a prefix at the match position. -/
theorem matchUrlAt_some_has_http_prefix (l : List Char) (u : String) (r : List Char)
    (h : matchUrlAt l = some (u, r)) :
    listPrefixEq ['h', 't', 't', 'p'] l = true := by
  unfold matchUrlAt at h
  split at h
  · simp [listPrefixEq]
  · exact absurd h (by simp)

/-- A line with no `http` substring has no URL-regex match anywhere. -/
theorem findUrlsAux_no_http (fuel : Nat) :
    ∀ l : List Char, hasSubstr ['h', 't', 't', 'p'] l = false → findUrlsAux fuel l = [] := by
  induction fuel with
  | zero => intro l _; cases l <;> rfl
  | succ n ih =>
    intro l h
    cases l with
    | nil => rfl
    | cons c rest =>
      have hsplit : listPrefixEq ['h', 't', 't', 'p'] (c :: rest) = false ∧
          hasSubstr ['h', 't', 't', 'p'] rest = false := by
        simpa [hasSubstr] using h
      have hmatch : matchUrlAt (c :: rest) = none := by
        cases hm : matchUrlAt (c :: rest) with
        | none => rfl
        | some p =>
          obtain ⟨u, r⟩ := p
          have hpre := matchUrlAt_some_has_http_prefix (c :: rest) u r hm
          rw [hsplit.1] at hpre
          exact absurd hpre (by simp)
      simp [findUrlsAux, hmatch, ih rest hsplit.2]

/-- C10: a line that contains "www." but no "http" substring contributes no
URL in the source-extraction step — the URL pattern only matches
http/https-scheme strings. -/
theorem www_line_without_http_yields_no_urls (line : String)
    (hwww : strContains line "www." = true)
    (hhttp : strContains line "http" = false) :
    lineSources line.data = [] := by
  have hfind : findUrls line.data = [] := findUrlsAux_no_http _ line.data hhttp
  unfold lineSources
  split
  · exact hfind
  · rfl

/-- C10 witness: the one-line answer "www.example.com" contains "www." and
no "http", its line contributes no URL, and the whole extraction is empty. -/
theorem www_line_without_http_yields_no_urls_witness :
    strContains "www.example.com" "www." = true ∧
    strContains "www.example.com" "http" = false ∧
    lineSources "www.example.com".data = [] ∧
    extract_sources "www.example.com" = [] :=
  ⟨by decide, by decide,
   www_line_without_http_yields_no_urls "www.example.com" (by decide) (by decide),
   by decide⟩

end ExternalSearch
